import Mathlib

/-!
Verification of the process-gpt-openai-deep-research job poller / worker
supervisor / pipeline orchestrator, against its natural-language spec.

The repository ships two variants of most components:
- the "core" variant: `src/core/polling_manager.py`, `src/core/database.py`,
  `src/flows/multi_format_flow.py`, `src/research/prompt_executor.py`;
- the "legacy" variant at top level: `src/polling_manager.py`,
  `src/database.py`, `src/multi_format_flow.py`, `src/prompt_executor.py`.

Definitions below are shallow embeddings of the Python functions; names keep
the Python names (leading underscores dropped), with a `_legacy` suffix for
the top-level variant when the two differ.  Python `dict[str, str]` values
are modelled as insertion-ordered association lists (`List (String × String)`)
with Python dict assignment/lookup semantics (`dictInsert` / `dictLookup`).
Raising Python code is modelled with `Except String`.
-/

namespace DeepResearch

/-- Python `d[k] = v` on a `dict`: overwrite in place if `k` is present
(keeping its position), else append at the end. -/
def dictInsert (d : List (String × String)) (k v : String) :
    List (String × String) :=
  match d with
  | [] => [(k, v)]
  | (k', v') :: rest =>
      if k' = k then (k', v) :: rest else (k', v') :: dictInsert rest k v

/-- Python `d[k] if k in d else None` on a `dict`. -/
def dictLookup (d : List (String × String)) (t : String) : Option String :=
  match d with
  | [] => none
  | (k, v) :: rest => if k = t then some v else dictLookup rest t

/-- Python `{**a, **b}`: entries of `b` written over `a` in order. -/
def dictMerge (a b : List (String × String)) : List (String × String) :=
  b.foldl (fun acc p => dictInsert acc p.1 p.2) a

@[simp] theorem dictLookup_nil (t : String) : dictLookup [] t = none := rfl

theorem dictLookup_cons (k v t : String) (rest : List (String × String)) :
    dictLookup ((k, v) :: rest) t =
      if k = t then some v else dictLookup rest t := rfl

theorem dictLookup_dictInsert_self (d : List (String × String)) (k v : String) :
    dictLookup (dictInsert d k v) k = some v := by
  induction d with
  | nil => simp [dictInsert, dictLookup]
  | cons p rest ih =>
      obtain ⟨k', v'⟩ := p
      by_cases h : k' = k
      · simp [dictInsert, dictLookup, h]
      · simp [dictInsert, dictLookup, h, ih]

theorem dictLookup_dictInsert_ne (d : List (String × String)) (k v t : String)
    (h : k ≠ t) : dictLookup (dictInsert d k v) t = dictLookup d t := by
  induction d with
  | nil => simp [dictInsert, dictLookup, h]
  | cons p rest ih =>
      obtain ⟨k', v'⟩ := p
      by_cases h' : k' = k
      · subst h'
        simp [dictInsert, dictLookup, h]
      · simp [dictInsert, dictLookup, h', ih]

/-- Lookup in an association list with pairwise-distinct keys is invariant
under permutation of the entries. -/
theorem dictLookup_perm {l l' : List (String × String)} (h : l.Perm l')
    (hnd : (l.map Prod.fst).Nodup) (t : String) :
    dictLookup l t = dictLookup l' t := by
  induction h with
  | nil => rfl
  | cons p h ih =>
      obtain ⟨k, v⟩ := p
      have hnd' : _ := (List.nodup_cons.mp hnd).2
      by_cases hk : k = t
      · simp [dictLookup, hk]
      · simp [dictLookup, hk]
        exact ih hnd'
  | swap p q l =>
      obtain ⟨k₁, v₁⟩ := p
      obtain ⟨k₂, v₂⟩ := q
      have hne : k₂ ≠ k₁ := by
        have := (List.nodup_cons.mp hnd).1
        intro hcontra
        exact this (by simp [hcontra])
      by_cases h₂ : k₂ = t
      · by_cases h₁ : k₁ = t
        · exact absurd (h₁.trans h₂.symm) (fun he => hne (he.symm))
        · simp [dictLookup, h₁, h₂]
      · by_cases h₁ : k₁ = t
        · simp [dictLookup, h₁, h₂]
        · simp [dictLookup, h₁, h₂]
  | trans h₁ h₂ ih₁ ih₂ =>
      have hnd₂ : _ := (h₁.map Prod.fst).nodup hnd
      exact (ih₁ hnd).trans (ih₂ hnd₂)

-- ===========================================================================
-- Pipeline orchestrator: report merge (C1)
-- ===========================================================================

/-- A TOC section.  The TOC JSON objects also carry `number` and
`subsections` fields, but the merge and fan-out code reads only
`sec["title"]` / `sec.get('title', 'unknown')`. -/
structure Section where
  title : String
deriving DecidableEq, Repr

/-- The separator used by both merge sites. -/
def sectionSeparator : String := "\n\n---\n\n"

/-- Embeds the merge expression shared by `_merge_report_sections` and
`_save_intermediate_result` (identical in `src/flows/multi_format_flow.py`
and `src/multi_format_flow.py`):

    ordered_titles = [sec["title"] for sec in sections]
    merged_content = "\n\n---\n\n".join([
        self.state.section_contents[report_key][title]
        for title in ordered_titles
        if title in self.state.section_contents[report_key]])

`section_contents` is the per-report dict of completed section texts. -/
def merge_report_sections (sections : List Section)
    (section_contents : List (String × String)) : String :=
  String.intercalate sectionSeparator
    ((sections.map Section.title).filterMap
      (fun title => dictLookup section_contents title))

/-- Modelled from the spec's words (§8 order-preservation): the join, with
separator `"\n\n---\n\n"`, of the completed sections' contents taken in the
TOC declaration order restricted to completed titles. -/
def spec_merged_report (sections : List Section)
    (completed : String → Option String) : String :=
  String.intercalate sectionSeparator
    ((sections.map Section.title).filterMap completed)

/-- C1: for every TOC and every set of completed sections, whatever the
order in which section tasks completed (i.e. whatever the insertion order of
the `section_contents` dict), the merged report string — this expression is
both the final merge and every intermediate checkpoint merge — equals the
join of the completed contents in TOC declaration order restricted to
completed titles, never in completion order. -/
theorem merge_is_toc_order_restricted (sections : List Section)
    (done done' : List (String × String)) (hperm : done.Perm done')
    (hnd : (done.map Prod.fst).Nodup) :
    merge_report_sections sections done' =
      spec_merged_report sections (dictLookup done) := by
  unfold merge_report_sections spec_merged_report
  have hfun : (fun t => dictLookup done' t) = fun t => dictLookup done t :=
    funext fun t => (dictLookup_perm hperm hnd t).symm
  rw [hfun]

/-- Witness for C1 at a concrete input: TOC `[A, B]`, section B completed
before section A; the merge is `content(A) ++ sep ++ content(B)`. -/
theorem merge_is_toc_order_restricted_witness :
    merge_report_sections [⟨"A"⟩, ⟨"B"⟩] [("B", "cb"), ("A", "ca")] =
      spec_merged_report [⟨"A"⟩, ⟨"B"⟩]
        (dictLookup [("A", "ca"), ("B", "cb")]) ∧
    merge_report_sections [⟨"A"⟩, ⟨"B"⟩] [("B", "cb"), ("A", "ca")] =
      "ca\n\n---\n\ncb" := by
  constructor
  · exact merge_is_toc_order_restricted [⟨"A"⟩, ⟨"B"⟩]
      [("A", "ca"), ("B", "cb")] [("B", "cb"), ("A", "ca")]
      (List.Perm.swap _ _ _) (by decide)
  · rfl

-- ===========================================================================
-- Pipeline orchestrator: section fan-out / fan-in (C2) and TOC policy (C4)
-- ===========================================================================

/-- Outcome of one section's research task (`task.result()` either returns
the generated text or re-raises the task's exception). -/
inductive TaskResult where
  | ok (content : String)
  | err (msg : String)
deriving DecidableEq, Repr

/-- Embeds the per-completed-task body of the fan-in loop of
`_generate_section_contents` in `src/flows/multi_format_flow.py`
(lines 270–289).  On success the content is written under the section title.
On failure the `except` branch first calls
`handle_error("섹션생성", e, raise_error=True, ...)`, and `handle_error`
(`src/utils/logger.py`) raises `Exception(f"섹션생성 실패: {e}")` when
`raise_error=True`; the placeholder assignment on the following line is
therefore unreachable and the exception propagates. -/
def process_done_task_flows (contents : List (String × String))
    (title : String) (r : TaskResult) :
    Except String (List (String × String)) :=
  match r with
  | .ok c => .ok (dictInsert contents title c)
  | .err m => .error ("섹션생성 실패: " ++ m)

/-- Embeds the per-completed-task body of the fan-in loop of
`_generate_section_contents` in `src/multi_format_flow.py` (lines 271–290):
on failure the placeholder string `f"섹션 생성 실패: {str(e)}"` is stored
under the section title and processing continues. -/
def process_done_task_legacy (contents : List (String × String))
    (title : String) (r : TaskResult) : List (String × String) :=
  match r with
  | .ok c => dictInsert contents title c
  | .err m => dictInsert contents title ("섹션 생성 실패: " ++ m)

/-- The fan-in loop of `src/flows/multi_format_flow.py`, folded over the
section tasks in their (nondeterministic) completion order, starting from the
empty dict set up by `generate_reports`
(`self.state.section_contents[report_key] = {}`).  An exception raised for
one task aborts the loop immediately, as in Python. -/
def generate_section_contents_flows
    (completion : List (String × TaskResult)) :
    Except String (List (String × String)) :=
  completion.foldlM (fun acc p => process_done_task_flows acc p.1 p.2) []

/-- The fan-in loop of `src/multi_format_flow.py` over the completion
order; never raises. -/
def generate_section_contents_legacy
    (completion : List (String × TaskResult)) : List (String × String) :=
  completion.foldl (fun acc p => process_done_task_legacy acc p.1 p.2) []

/-- Embeds `_create_report_sections` of `src/flows/multi_format_flow.py`
(lines 175–215).  `tocResult` models `generate_toc` followed by
`clean_json_response`, `json.loads` and `.get("toc", [])`: an error if any of
them raised, otherwise the parsed section list (possibly empty).  The
`except` branch calls `handle_error("TOC생성", e, raise_error=True, ...)`,
which raises `Exception(f"TOC생성 실패: {e}")`; the `return []` after it is
unreachable. -/
def create_report_sections_flows
    (tocResult : Except String (List Section)) :
    Except String (List Section) :=
  match tocResult with
  | .ok secs => .ok secs
  | .error m => .error ("TOC생성 실패: " ++ m)

/-- Embeds `_create_report_sections` of `src/multi_format_flow.py`
(lines 176–217): the `except` branch prints and returns `[]`, so a raising
TOC generation is replaced by an empty section list. -/
def create_report_sections_legacy
    (tocResult : Except String (List Section)) : List Section :=
  match tocResult with
  | .ok secs => secs
  | .error _ => []

/-- The body of `generate_reports` (`src/flows/multi_format_flow.py`,
lines 155–169) for one report key: TOC creation, section fan-out/fan-in,
final merge.  `completion` is the list of `(title, task outcome)` pairs in
the order the section tasks completed (one task per TOC section; empty when
the TOC is empty). -/
def generate_report_for_key_flows
    (tocResult : Except String (List Section))
    (completion : List (String × TaskResult)) : Except String String :=
  match create_report_sections_flows tocResult with
  | .error m => .error m
  | .ok secs =>
      match generate_section_contents_flows completion with
      | .error m => .error m
      | .ok contents => .ok (merge_report_sections secs contents)

/-- C2 (code bug exhibit): in `src/flows/multi_format_flow.py` a single
failing section task makes the fan-in loop raise — the exception escapes
`_generate_section_contents` (and hence the report phase), and the
placeholder is never written, although the inline comment on the `except`
branch says the failure is non-fatal and replaced by an error message.  The
legacy variant (`src/multi_format_flow.py`) implements that documented
behaviour: placeholder for the failing title, real content for the others. -/
theorem section_failure_escapes_report_phase :
    generate_section_contents_flows
        [("A", .err "boom"), ("B", .ok "bodyB")] =
      .error "섹션생성 실패: boom" ∧
    generate_section_contents_legacy
        [("A", .err "boom"), ("B", .ok "bodyB")] =
      [("A", "섹션 생성 실패: boom"), ("B", "bodyB")] := by
  exact ⟨rfl, rfl⟩

/-- C4 counterexample: a TOC generation that succeeds but yields an empty
section list is not fatal in the flows variant — the report phase completes
normally with an empty merged report — and in the legacy variant even a
raising TOC generation is swallowed and replaced by an empty section list.
The claim that both are fatal (propagated) is therefore false. -/
theorem empty_toc_not_fatal :
    generate_report_for_key_flows (.ok []) [] = .ok "" ∧
    create_report_sections_legacy (.error "boom") = [] := by
  exact ⟨rfl, rfl⟩

/-- C4 amended: in the flows variant a raising TOC generation or JSON parse
is fatal for the job — the error propagates out of
`_create_report_sections` and aborts the report for that key — while a
successfully parsed empty section list is not fatal (the phase proceeds and
merges zero sections into an empty report); in the legacy variant a raising
TOC generation is caught and replaced by an empty section list. -/
theorem toc_failure_policy (m : String)
    (completion : List (String × TaskResult)) :
    generate_report_for_key_flows (.error m) completion =
      .error ("TOC생성 실패: " ++ m) ∧
    generate_report_for_key_flows (.ok []) [] = .ok "" ∧
    create_report_sections_legacy (.error m) = [] := by
  exact ⟨rfl, rfl, rfl⟩

-- ===========================================================================
-- Retry wrapper (C3)
-- ===========================================================================

/-- Observable trace of one run of a retry loop: the final result (an error
models the exception raised by the final `handle_error(..., raise_error=True)`),
the number of invocations of the wrapped function, and the `time.sleep`
durations in order. -/
structure RetryTrace where
  result : Except String String
  calls : Nat
  sleeps : List ℚ
deriving Repr

/-- The delay computed in the `except` branch of the retry loops in
`src/research/prompt_executor.py`:
`delay = base_delay * (2 ** (attempt - 1)) + jitter` with
`jitter = random.uniform(0, 0.3)`. -/
def retryDelay (baseDelay : ℚ) (attempt : Nat) (jitter : ℚ) : ℚ :=
  baseDelay * 2 ^ (attempt - 1) + jitter

/-- One step of the retry loop body, iterated below.  `once attempt` models
the outcome of `_once()` on the given attempt; `jitter attempt` the drawn
jitter.  On an exception the loop records the sleep and continues; the
recursion bottoming out models the loop in
`for attempt in range(1, 4)` ending, after which
`handle_error(f"TOC OpenAI 최종실패", last_error, raise_error=True)` raises. -/
def retryLoop (once : Nat → Except String String) (jitter : Nat → ℚ)
    (baseDelay : ℚ) (attempt remaining : Nat) (lastErr : String)
    (sleeps : List ℚ) (calls : Nat) : RetryTrace :=
  match remaining with
  | 0 => ⟨.error ("TOC OpenAI 최종실패 실패: " ++ lastErr), calls, sleeps⟩
  | r + 1 =>
      match once attempt with
      | .ok s => ⟨.ok s, calls + 1, sleeps⟩
      | .error m =>
          retryLoop once jitter baseDelay (attempt + 1) r m
            (sleeps ++ [retryDelay baseDelay attempt (jitter attempt)])
            (calls + 1)

/-- Embeds the retry loop of `generate_toc`
(`src/research/prompt_executor.py`, lines 121–132): three attempts
(`range(1, 4)`), `base_delay = 0.8`; every failed attempt sleeps
`0.8 * 2^(attempt-1) + uniform(0, 0.3)`; after exhaustion `handle_error`
with `raise_error=True` raises (the `return '{"title": "", "toc": []}'`
after it is unreachable). -/
def generate_toc_retry (once : Nat → Except String String)
    (jitter : Nat → ℚ) : RetryTrace :=
  retryLoop once jitter (4/5) 1 3 "" [] 0

/-- C3: the retry wrapper with `maxAttempts = 3` invokes the wrapped call at
most 3 times; when every attempt raises it invokes it exactly 3 times, the
sleeps taken between attempts are `0.8 * 2^(attempt-1)` plus a jitter in
`[0, 0.3]`, and exactly one exception propagates out; when an attempt
succeeds its result is returned with no further attempts. -/
theorem generate_toc_retry_bound (once : Nat → Except String String)
    (jitter : Nat → ℚ) (hj : ∀ i, 0 ≤ jitter i ∧ jitter i ≤ 3/10) :
    (generate_toc_retry once jitter).calls ≤ 3 ∧
    ((∀ i, ∃ m, once i = .error m) →
      (generate_toc_retry once jitter).calls = 3 ∧
      (∃ m, (generate_toc_retry once jitter).result = .error m) ∧
      (generate_toc_retry once jitter).sleeps =
        [retryDelay (4/5) 1 (jitter 1), retryDelay (4/5) 2 (jitter 2),
         retryDelay (4/5) 3 (jitter 3)] ∧
      (∀ a, 1 ≤ a → a ≤ 3 →
        4/5 * 2 ^ (a - 1) ≤ retryDelay (4/5) a (jitter a) ∧
        retryDelay (4/5) a (jitter a) ≤ 4/5 * 2 ^ (a - 1) + 3/10)) ∧
    (∀ s, once 1 = .ok s →
      (generate_toc_retry once jitter).result = .ok s ∧
      (generate_toc_retry once jitter).calls = 1) ∧
    (∀ s m, once 1 = .error m → once 2 = .ok s →
      (generate_toc_retry once jitter).result = .ok s ∧
      (generate_toc_retry once jitter).calls = 2) ∧
    (∀ s m₁ m₂, once 1 = .error m₁ → once 2 = .error m₂ → once 3 = .ok s →
      (generate_toc_retry once jitter).result = .ok s ∧
      (generate_toc_retry once jitter).calls = 3) := by
  refine ⟨?_, ?_, ?_, ?_, ?_⟩
  · rcases h1 : once 1 with m₁ | s₁
    · rcases h2 : once 2 with m₂ | s₂
      · rcases h3 : once 3 with m₃ | s₃ <;>
          simp [generate_toc_retry, retryLoop, h1, h2, h3]
      · simp [generate_toc_retry, retryLoop, h1, h2]
    · simp [generate_toc_retry, retryLoop, h1]
  · intro hall
    obtain ⟨m₁, h1⟩ := hall 1
    obtain ⟨m₂, h2⟩ := hall 2
    obtain ⟨m₃, h3⟩ := hall 3
    refine ⟨?_, ⟨"TOC OpenAI 최종실패 실패: " ++ m₃, ?_⟩, ?_, ?_⟩
    · simp [generate_toc_retry, retryLoop, h1, h2, h3]
    · simp [generate_toc_retry, retryLoop, h1, h2, h3]
    · simp [generate_toc_retry, retryLoop, h1, h2, h3]
    · intro a _ _
      have := hj a
      constructor
      · simp only [retryDelay]
        linarith [this.1]
      · simp only [retryDelay]
        linarith [this.2]
  · intro s h1
    simp [generate_toc_retry, retryLoop, h1]
  · intro s m h1 h2
    simp [generate_toc_retry, retryLoop, h1, h2]
  · intro s m₁ m₂ h1 h2 h3
    simp [generate_toc_retry, retryLoop, h1, h2, h3]

/-- Witness for C3: all three attempts fail with zero jitter; the wrapped
call runs exactly 3 times, an error propagates, and the sleeps are
`0.8, 1.6, 3.2`. -/
theorem generate_toc_retry_bound_witness :
    (generate_toc_retry (fun _ => .error "rate limited")
        (fun _ => 0)).calls = 3 ∧
    (generate_toc_retry (fun _ => .error "rate limited")
        (fun _ => 0)).sleeps = [4/5, 8/5, 16/5] ∧
    (∃ m, (generate_toc_retry (fun _ => .error "rate limited")
        (fun _ => 0)).result = .error m) := by
  have h := generate_toc_retry_bound (fun _ => .error "rate limited")
    (fun _ => 0) (by intro i; norm_num)
  have h2 := h.2.1 (by intro i; exact ⟨"rate limited", rfl⟩)
  refine ⟨h2.1, ?_, h2.2.1⟩
  · rw [h2.2.2.1]
    norm_num [retryDelay]

-- ===========================================================================
-- TEXT phase: parsing the batched generation result (C5)
-- ===========================================================================

/-- Outcome of `json.loads(cleaned_result)` when it does not raise: either a
JSON object (modelled with string values, the shape the flow stores) or some
non-object JSON value (whose payload the flows code never reads). -/
inductive ParsedJson where
  | dict (entries : List (String × String))
  | nonDict
deriving DecidableEq

/-- Embeds `_parse_all_text_results` of `src/flows/multi_format_flow.py`
(lines 515–527).  `cleaned` models `clean_json_response(raw_result)` and
`parsed` the outcome of `json.loads(cleaned)` (`none` = `JSONDecodeError`).
A dict result is stored as-is; a non-dict parse stores
`{"text": cleaned_result}`; a decode error stores
`{"text": str(raw_result)}`. -/
def parse_all_text_results_flows (rawResult cleaned : String)
    (parsed : Option ParsedJson) : List (String × String) :=
  match parsed with
  | some (.dict entries) => entries
  | some .nonDict => [("text", cleaned)]
  | none => [("text", rawResult)]

/-- Embeds `_parse_text_results` of `src/multi_format_flow.py`
(lines 547–566), for `parsed` a JSON object (`some entries`) or a
`JSONDecodeError` (`none`): per requested form key, the parsed value if the
key is present, else the raw result; on decode error the raw result is
assigned to every requested form key.  `text_contents` is the state dict
being written into. -/
def parse_text_results_legacy (rawResult : String) (formKeys : List String)
    (parsed : Option (List (String × String)))
    (text_contents : List (String × String)) : List (String × String) :=
  match parsed with
  | none =>
      formKeys.foldl (fun acc k => dictInsert acc k rawResult) text_contents
  | some entries =>
      formKeys.foldl (fun acc k =>
        match dictLookup entries k with
        | some v => dictInsert acc k v
        | none => dictInsert acc k rawResult) text_contents

/-- Folding constant-valued inserts: if `k` occurs among the folded keys, or
already maps to `v`, it maps to `v` afterwards. -/
theorem dictLookup_foldl_insert_const (ks : List String)
    (acc : List (String × String)) (k v : String)
    (h : k ∈ ks ∨ dictLookup acc k = some v) :
    dictLookup (ks.foldl (fun a k' => dictInsert a k' v) acc) k = some v := by
  induction ks generalizing acc with
  | nil =>
      rcases h with h | h
      · cases h
      · simpa using h
  | cons k₀ rest ih =>
      simp only [List.foldl_cons]
      rcases h with h | h
      · rcases List.mem_cons.mp h with h | h
        · subst h
          exact ih _ (Or.inr (dictLookup_dictInsert_self acc k v))
        · exact ih _ (Or.inl h)
      · by_cases hk : k₀ = k
        · subst hk
          exact ih _ (Or.inr (dictLookup_dictInsert_self acc k₀ v))
        · refine ih _ (Or.inr ?_)
          rw [dictLookup_dictInsert_ne _ _ _ _ hk]
          exact h

/-- C5 counterexample: in the legacy variant a non-JSON batched result run
for two form keys yields a two-entry map (the raw text under every form
key), not a single-entry map under one fallback key. -/
theorem non_json_text_result_not_single_entry :
    parse_text_results_legacy "not json" ["k1", "k2"] none [] =
      [("k1", "not json"), ("k2", "not json")] ∧
    (parse_text_results_legacy "not json" ["k1", "k2"] none []).length ≠ 1 := by
  exact ⟨rfl, by decide⟩

/-- C5 amended: a non-JSON batched text result never raises; in the flows
variant `text_contents` becomes the single-entry map from the fallback key
`"text"` to the raw returned text verbatim, while in the legacy variant the
raw text is stored verbatim under every requested form key. -/
theorem non_json_text_result_policy (raw cleaned : String)
    (ks : List String) :
    parse_all_text_results_flows raw cleaned none = [("text", raw)] ∧
    (∀ k, k ∈ ks →
      dictLookup (parse_text_results_legacy raw ks none []) k = some raw) := by
  refine ⟨rfl, fun k hk => ?_⟩
  exact dictLookup_foldl_insert_const ks [] k raw (Or.inl hk)

/-- Witness for C5 (amended) at a concrete input. -/
theorem non_json_text_result_policy_witness :
    parse_all_text_results_flows "oops not json" "oops" none =
      [("text", "oops not json")] ∧
    dictLookup (parse_text_results_legacy "oops not json" ["a"] none []) "a" =
      some "oops not json" := by
  have h := non_json_text_result_policy "oops not json" "oops" ["a"]
  exact ⟨h.1, h.2 "a" (by simp)⟩

-- ===========================================================================
-- Worker supervisor: terminal status resolution (C6) and lease release (C8)
-- ===========================================================================

/-- A Store Gateway status write. -/
inductive StoreCall where
  | markFailed (todoId : Nat)
  | markCompleted (todoId : Nat)
deriving DecidableEq, Repr

/-- An Event Sink emission made by the supervisor. -/
inductive SupEvent where
  | crewCompleted
deriving DecidableEq, Repr

/-- Embeds the post-wait tail of `_execute_worker_process` in
`src/core/polling_manager.py` (lines 133–153): if the supervisor itself
terminated the worker it returns without any write; else a non-zero exit
code is handled non-fatally (`handle_error(..., raise_error=False)`) and the
task is marked FAILED; else a `crew_completed` event is emitted and the task
is marked COMPLETED.  The returned pair lists the Store Gateway writes and
the events emitted; the function returning (rather than raising) models that
none of these branches propagates an exception to the poller. -/
def execute_worker_post (terminatedByUs : Bool) (returncode : Int)
    (todoId : Nat) : List StoreCall × List SupEvent :=
  if terminatedByUs then ([], [])
  else if returncode ≠ 0 then ([.markFailed todoId], [])
  else ([.markCompleted todoId], [.crewCompleted])

/-- Embeds the post-wait tail of `_execute_worker_process` in
`src/polling_manager.py` (lines 119–127): after `current_process.wait()` it
only calls `_log_worker_result()`, which logs; no Store Gateway status write
and no event emission happen on any branch. -/
def execute_worker_post_legacy (_terminatedByUs : Bool) (_returncode : Int) :
    List StoreCall × List SupEvent :=
  ([], [])

/-- The task row fields the terminal updates touch. -/
structure TaskRow where
  draft_status : String
  consumer : Option String
deriving DecidableEq, Repr

/-- Embeds `update_task_completed` (`src/core/database.py`, lines 196–210):
`update({'draft_status': 'COMPLETED', 'consumer': None})`. -/
def update_task_completed (_row : TaskRow) : TaskRow :=
  { draft_status := "COMPLETED", consumer := none }

/-- Embeds `update_task_error` (`src/core/database.py`, lines 213–227):
`update({'draft_status': 'FAILED', 'consumer': None})`. -/
def update_task_error (_row : TaskRow) : TaskRow :=
  { draft_status := "FAILED", consumer := none }

/-- Apply a sequence of Store Gateway status writes to a task row. -/
def applyStoreCalls (row : TaskRow) (calls : List StoreCall) : TaskRow :=
  calls.foldl (fun r c =>
    match c with
    | .markFailed _ => update_task_error r
    | .markCompleted _ => update_task_completed r) row

/-- C6 counterexample: in the legacy supervisor
(`src/polling_manager.py`) a worker exiting with a non-zero code while the
supervisor did not request termination produces no FAILED marking (and a
zero exit produces no COMPLETED marking and no `crew_completed` event): the
exit is only logged.  The claim that the supervisor marks the task is
therefore false for this variant. -/
theorem legacy_supervisor_never_marks :
    execute_worker_post_legacy false 1 = ([], []) ∧
    execute_worker_post_legacy false 0 = ([], []) ∧
    StoreCall.markFailed 7 ∉ (execute_worker_post_legacy false 1).1 := by
  exact ⟨rfl, rfl, by decide⟩

/-- C6 amended: in the core supervisor (`src/core/polling_manager.py`) the
claimed behaviour holds — termination requested by the supervisor writes no
terminal status; a non-zero exit marks the task FAILED without raising to
the poller; a zero exit emits `crew_completed` and marks the task COMPLETED.
The legacy supervisor (`src/polling_manager.py`) only logs the outcome and
performs none of these writes or emissions. -/
theorem supervisor_terminal_status (t : Bool) (rc : Int) (id : Nat) :
    (t = true → execute_worker_post t rc id = ([], [])) ∧
    (t = false → rc ≠ 0 →
      execute_worker_post t rc id = ([.markFailed id], [])) ∧
    (t = false → rc = 0 →
      execute_worker_post t rc id = ([.markCompleted id], [.crewCompleted])) ∧
    execute_worker_post_legacy t rc = ([], []) := by
  refine ⟨?_, ?_, ?_, rfl⟩
  · intro h; simp [execute_worker_post, h]
  · intro h hrc; simp [execute_worker_post, h, hrc]
  · intro h hrc; simp [execute_worker_post, h, hrc]

/-- Witness for C6 (amended) at concrete inputs. -/
theorem supervisor_terminal_status_witness :
    execute_worker_post true (-15) 7 = ([], []) ∧
    execute_worker_post false 1 7 = ([.markFailed 7], []) ∧
    execute_worker_post false 0 7 = ([.markCompleted 7], [.crewCompleted]) := by
  refine ⟨?_, ?_, ?_⟩
  · exact (supervisor_terminal_status true (-15) 7).1 rfl
  · exact (supervisor_terminal_status false 1 7).2.1 rfl (by decide)
  · exact (supervisor_terminal_status false 0 7).2.2.1 rfl rfl

/-- C8 counterexample: on the cancellation outcome (the supervisor itself
terminated the worker) the core supervisor returns without any Store
Gateway write, so the task's `consumer` lease field keeps its value — a
terminal outcome that leaves the lease held. -/
theorem cancellation_leaves_lease_held :
    (applyStoreCalls ⟨"CANCELLED", some "host-a"⟩
        (execute_worker_post true (-15) 7).1).consumer = some "host-a" := by
  rfl

/-- C8 amended: every transition this system makes to COMPLETED or FAILED
writes `consumer = null` (success, failure and crash outcomes all clear the
lease), but the cancellation outcome performs no terminal write of its own
and leaves the `consumer` field unchanged, deferring the lease to a later
external status-driven transition. -/
theorem lease_cleared_on_terminal_write (row : TaskRow) (t : Bool)
    (rc : Int) (id : Nat) :
    (update_task_completed row).consumer = none ∧
    (update_task_error row).consumer = none ∧
    (t = false →
      (applyStoreCalls row (execute_worker_post t rc id).1).consumer = none) ∧
    (t = true → applyStoreCalls row (execute_worker_post t rc id).1 = row) := by
  refine ⟨rfl, rfl, ?_, ?_⟩
  · intro h
    subst h
    by_cases hrc : rc = 0
    · simp [execute_worker_post, hrc, applyStoreCalls, update_task_completed]
    · simp [execute_worker_post, hrc, applyStoreCalls, update_task_error]
  · intro h
    subst h
    rfl

/-- Witness for C8 (amended) at concrete inputs. -/
theorem lease_cleared_on_terminal_write_witness :
    (applyStoreCalls ⟨"IN_PROGRESS", some "host-a"⟩
        (execute_worker_post false 1 7).1).consumer = none ∧
    applyStoreCalls ⟨"CANCELLED", some "host-a"⟩
        (execute_worker_post true 0 7).1 = ⟨"CANCELLED", some "host-a"⟩ := by
  refine ⟨?_, ?_⟩
  · exact (lease_cleared_on_terminal_write ⟨"IN_PROGRESS", some "host-a"⟩
      false 1 7).2.2.1 rfl
  · exact (lease_cleared_on_terminal_write ⟨"CANCELLED", some "host-a"⟩
      true 0 7).2.2.2 rfl

-- ===========================================================================
-- Cancellation monitor (C7)
-- ===========================================================================

/-- The supervisor-side mutable state shared by `_watch_cancel_status` and
`terminate_current_worker` (identical in `src/core/polling_manager.py` and
`src/polling_manager.py`): whether `current_process` is set, its
`returncode` (`none` while running), the `worker_terminated_by_us` flag,
plus the observables of a run — the number of `terminate()` signals actually
sent and whether the monitor loop is still running. -/
structure SupState where
  processExists : Bool
  returncode : Option Int
  flag : Bool
  signals : Nat
  monitoring : Bool
deriving DecidableEq, Repr

/-- Embeds `terminate_current_worker`
(`src/core/polling_manager.py`, lines 188–197): if a worker process exists
and its exit code is unresolved, set `worker_terminated_by_us` and send
`terminate()`; otherwise only log (a no-op on the state). -/
def terminate_current_worker (s : SupState) : SupState :=
  if s.processExists = true ∧ s.returncode = none then
    { s with flag := true, signals := s.signals + 1 }
  else s

/-- `draft_status in ('CANCELLED', 'FB_REQUESTED')`. -/
def isCancelStatus : Option String → Bool
  | some s => s == "CANCELLED" || s == "FB_REQUESTED"
  | none => false

/-- One iteration of the `while` loop of `_watch_cancel_status`
(`src/core/polling_manager.py`, lines 177–186) on a state whose
`returncode` has already been refreshed to the worker's current value:
if the loop condition
(`current_process and current_process.returncode is None and not
worker_terminated_by_us`) fails, the loop exits; else the task status is
polled (a poll failure, modelled as `status = none`, is logged and ignored)
and a CANCELLED/FB_REQUESTED status triggers `terminate_current_worker`
followed by `break`. -/
def watch_iter (s : SupState) (status : Option String) : SupState :=
  if s.monitoring = false then s
  else if s.processExists = false ∨ s.returncode ≠ none ∨ s.flag = true then
    { s with monitoring := false }
  else if isCancelStatus status = true then
    { terminate_current_worker s with monitoring := false }
  else s

/-- One monitor step: the worker runs concurrently, so before the iteration
the observed `returncode` is refreshed to whatever the worker's exit state
is at that moment (`rc`). -/
def watch_step (s : SupState) (rc : Option Int) (status : Option String) :
    SupState :=
  watch_iter { s with returncode := rc } status

/-- A whole monitor run over a sequence of (worker exit state, polled task
status) observations. -/
def watch_run (s : SupState)
    (obs : List (Option Int × Option String)) : SupState :=
  obs.foldl (fun s o => watch_step s o.1 o.2) s

/-- The monitor state at worker start (`_execute_worker_process` resets
`worker_terminated_by_us = False` and spawns the process before starting the
watch task). -/
def watchInit : SupState :=
  { processExists := true, returncode := none, flag := false,
    signals := 0, monitoring := true }

theorem watch_iter_inv (s : SupState) (st : Option String)
    (h1 : s.signals ≤ 1) (h2 : 1 ≤ s.signals → s.monitoring = false) :
    (watch_iter s st).signals ≤ 1 ∧
      (1 ≤ (watch_iter s st).signals → (watch_iter s st).monitoring = false) := by
  unfold watch_iter
  split
  · next hmon => exact ⟨h1, fun _ => hmon⟩
  · next hmon =>
      split
      · exact ⟨h1, fun _ => rfl⟩
      · split
        · have hsg : s.signals = 0 := by
            by_contra h
            exact hmon (h2 (Nat.one_le_iff_ne_zero.mpr h))
          unfold terminate_current_worker
          split
          · simp [hsg]
          · exact ⟨h1, fun _ => rfl⟩
        · exact ⟨h1, h2⟩

theorem watch_run_inv (obs : List (Option Int × Option String))
    (s : SupState) (h1 : s.signals ≤ 1)
    (h2 : 1 ≤ s.signals → s.monitoring = false) :
    (watch_run s obs).signals ≤ 1 ∧
      (1 ≤ (watch_run s obs).signals → (watch_run s obs).monitoring = false) := by
  induction obs generalizing s with
  | nil => exact ⟨h1, h2⟩
  | cons o rest ih =>
      have hstep := watch_iter_inv { s with returncode := o.1 } o.2 h1 h2
      exact ih _ hstep.1 hstep.2

theorem watch_run_stopped (obs : List (Option Int × Option String))
    (s : SupState) (h : s.monitoring = false) :
    (watch_run s obs).signals = s.signals ∧
      (watch_run s obs).monitoring = false := by
  induction obs generalizing s with
  | nil => exact ⟨rfl, h⟩
  | cons o rest ih =>
      have hstep : watch_step s o.1 o.2 = { s with returncode := o.1 } := by
        unfold watch_step watch_iter
        rw [if_pos]
        exact h
      have hrun : watch_run s (o :: rest) =
          watch_run { s with returncode := o.1 } rest := by
        show watch_run (watch_step s o.1 o.2) rest = _
        rw [hstep]
      rw [hrun]
      exact ih { s with returncode := o.1 } h

/-- C7: over any run of the cancellation monitor — any interleaving of
worker-exit observations and polled statuses — at most one termination
signal is ever sent; a polled CANCELLED status observed twice in a row from
a live worker still produces exactly one signal, because the monitor stops
after the first; and `terminate_current_worker` is a no-op whenever the
worker's exit code is already resolved or no worker process exists. -/
theorem cancellation_signal_sent_once (s₀ : SupState)
    (obs rest : List (Option Int × Option String))
    (h1 : s₀.signals ≤ 1) (h2 : 1 ≤ s₀.signals → s₀.monitoring = false) :
    (watch_run s₀ obs).signals ≤ 1 ∧
    (watch_run watchInit
        ((none, some "CANCELLED") :: (none, some "CANCELLED") :: rest)).signals
      = 1 ∧
    (∀ s : SupState, s.processExists = false ∨ s.returncode ≠ none →
      terminate_current_worker s = s) := by
  refine ⟨(watch_run_inv obs s₀ h1 h2).1, ?_, ?_⟩
  · have hfirst :
        watch_step watchInit none (some "CANCELLED") =
          { processExists := true, returncode := none, flag := true,
            signals := 1, monitoring := false } := by
      rfl
    show (watch_run (watch_step watchInit none (some "CANCELLED"))
        ((none, some "CANCELLED") :: rest)).signals = 1
    rw [hfirst]
    exact (watch_run_stopped _ _ rfl).1
  · intro s hs
    unfold terminate_current_worker
    rw [if_neg]
    rintro ⟨hpe, hrc⟩
    rcases hs with hs | hs
    · rw [hs] at hpe; cases hpe
    · exact hs hrc

/-- Witness for C7 at a concrete input: two consecutive CANCELLED polls on a
live worker send exactly one signal, and terminate on an already-exited
worker is a no-op. -/
theorem cancellation_signal_sent_once_witness :
    (watch_run watchInit
        [(none, some "CANCELLED"), (none, some "CANCELLED")]).signals = 1 ∧
    terminate_current_worker
        { processExists := true, returncode := some 0, flag := false,
          signals := 0, monitoring := false } =
      { processExists := true, returncode := some 0, flag := false,
        signals := 0, monitoring := false } := by
  have h := cancellation_signal_sent_once watchInit [] []
    (by decide) (by decide)
  exact ⟨h.2.1, h.2.2 _ (by simp)⟩

-- ===========================================================================
-- SLIDE phase: dependency routing (C9)
-- ===========================================================================

/-- A slide FormSpec from the execution plan:
`{key, dependencies (default [])}`. -/
structure SlideForm where
  key : String
  dependencies : List String
deriving DecidableEq, Repr

/-- Embeds `_create_slides` of `src/flows/multi_format_flow.py`
(lines 380–428).  For each slide form:
`if report_key and report_key not in slide_form.get('dependencies', []):
continue`, else generate and store under the form's key.  `gen` models
`generate_slide_from_report` as a function of its report-content argument
(the other arguments are fixed state).  Python truthiness of `report_key`:
`none` and `some ""` are falsy. -/
def create_slides_flows (forms : List SlideForm) (content : String)
    (report_key : Option String) (gen : String → String)
    (slide_contents : List (String × String)) : List (String × String) :=
  forms.foldl (fun acc f =>
    match report_key with
    | some rk =>
        if rk ≠ "" ∧ rk ∉ f.dependencies then acc
        else dictInsert acc f.key (gen content)
    | none => dictInsert acc f.key (gen content)) slide_contents

/-- Embeds `generate_slides` of `src/flows/multi_format_flow.py`
(lines 355–378): if `report_contents` is non-empty, `_create_slides` runs
once per report (with that report's key and content); only otherwise does it
run once on `previous_outputs` with no report key. -/
def generate_slides_flows (forms : List SlideForm)
    (report_contents : List (String × String)) (previous_outputs : String)
    (gen : String → String) : List (String × String) :=
  if report_contents ≠ [] then
    report_contents.foldl
      (fun acc p => create_slides_flows forms p.2 (some p.1) gen acc) []
  else
    create_slides_flows forms previous_outputs none gen []

/-- Embeds `_create_slides_from_report` of `src/multi_format_flow.py`
(lines 384–421): only forms whose `dependencies` contain `report_key` are
generated; others are skipped. -/
def create_slides_from_report_legacy (forms : List SlideForm)
    (report_key content : String) (gen : String → String)
    (slide_contents : List (String × String)) : List (String × String) :=
  forms.foldl (fun acc f =>
    if report_key ∈ f.dependencies then dictInsert acc f.key (gen content)
    else acc) slide_contents

/-- Embeds `generate_slides` + `_create_slides_from_context` of
`src/multi_format_flow.py` (lines 359–457). -/
def generate_slides_legacy (forms : List SlideForm)
    (report_contents : List (String × String)) (previous_context : String)
    (gen : String → String) : List (String × String) :=
  if report_contents ≠ [] then
    report_contents.foldl
      (fun acc p => create_slides_from_report_legacy forms p.1 p.2 gen acc) []
  else
    forms.foldl (fun acc f => dictInsert acc f.key (gen previous_context)) []

/-- C9 counterexample: with one report `("r1", "body")` present and a slide
form `s1` with no declared dependencies, both variants skip `s1` entirely —
it is not generated from the prior-context summary, and receives no content
at all, contradicting the claim that every slide FormSpec receives generated
content. -/
theorem slide_without_dependency_skipped :
    generate_slides_flows [⟨"s1", []⟩] [("r1", "body")] "prior"
        (fun c => "slide:" ++ c) = [] ∧
    generate_slides_legacy [⟨"s1", []⟩] [("r1", "body")] "prior"
        (fun c => "slide:" ++ c) = [] ∧
    dictLookup (generate_slides_flows [⟨"s1", []⟩] [("r1", "body")] "prior"
        (fun c => "slide:" ++ c)) "s1" = none := by
  exact ⟨rfl, rfl, rfl⟩

theorem lookup_create_slides_none (forms : List SlideForm)
    (acc : List (String × String)) (content : String)
    (gen : String → String) (k : String)
    (h : k ∈ forms.map SlideForm.key ∨ dictLookup acc k = some (gen content)) :
    dictLookup (create_slides_flows forms content none gen acc) k =
      some (gen content) := by
  induction forms generalizing acc with
  | nil =>
      rcases h with h | h
      · cases h
      · simpa [create_slides_flows] using h
  | cons f rest ih =>
      show dictLookup
        (create_slides_flows rest content none gen
          (dictInsert acc f.key (gen content))) k = some (gen content)
      rcases h with h | h
      · rcases List.mem_cons.mp h with h | h
        · subst h
          exact ih _ (Or.inr (dictLookup_dictInsert_self acc _ _))
        · exact ih _ (Or.inl h)
      · by_cases hk : f.key = k
        · subst hk
          exact ih _ (Or.inr (dictLookup_dictInsert_self acc _ _))
        · refine ih _ (Or.inr ?_)
          rw [dictLookup_dictInsert_ne _ _ _ _ hk]
          exact h

theorem lookup_create_slides_some (forms : List SlideForm)
    (acc : List (String × String)) (rk body : String)
    (gen : String → String) (hrk : rk ≠ "") (k : String)
    (h : (∃ f ∈ forms, f.key = k ∧ rk ∈ f.dependencies) ∨
      dictLookup acc k = some (gen body)) :
    dictLookup (create_slides_flows forms body (some rk) gen acc) k =
      some (gen body) := by
  induction forms generalizing acc with
  | nil =>
      rcases h with ⟨f, hf, _⟩ | h
      · cases hf
      · simpa [create_slides_flows] using h
  | cons f₀ rest ih =>
      by_cases hskip : rk ∉ f₀.dependencies
      · have hstep : create_slides_flows (f₀ :: rest) body (some rk) gen acc =
            create_slides_flows rest body (some rk) gen acc := by
          simp [create_slides_flows, hrk, hskip]
        rw [hstep]
        rcases h with ⟨f, hf, hk, hdep⟩ | h
        · rcases List.mem_cons.mp hf with hf | hf
          · subst hf; exact absurd hdep hskip
          · exact ih _ (Or.inl ⟨f, hf, hk, hdep⟩)
        · exact ih _ (Or.inr h)
      · push_neg at hskip
        have hstep : create_slides_flows (f₀ :: rest) body (some rk) gen acc =
            create_slides_flows rest body (some rk) gen
              (dictInsert acc f₀.key (gen body)) := by
          simp [create_slides_flows, hskip]
        rw [hstep]
        rcases h with ⟨f, hf, hk, hdep⟩ | h
        · rcases List.mem_cons.mp hf with hf | hf
          · subst hf
            exact ih _ (Or.inr (by rw [hk]; exact dictLookup_dictInsert_self acc _ _))
          · exact ih _ (Or.inl ⟨f, hf, hk, hdep⟩)
        · by_cases hkey : f₀.key = k
          · subst hkey
            exact ih _ (Or.inr (dictLookup_dictInsert_self acc _ _))
          · refine ih _ (Or.inr ?_)
            rw [dictLookup_dictInsert_ne _ _ _ _ hkey]
            exact h

/-- C9 amended: a slide FormSpec whose dependencies contain the key of a
generated report is generated from that report's text; and when
`report_contents` is empty every slide FormSpec is generated from the
prior-context summary; but when `report_contents` is non-empty, a slide
FormSpec without a matching dependency is skipped and receives no generated
content (shown at a concrete input by the counterexample theorem). -/
theorem slide_dependency_policy (forms : List SlideForm)
    (rk body prev : String) (gen : String → String) (hrk : rk ≠ "") :
    (∀ f ∈ forms, rk ∈ f.dependencies →
      dictLookup (generate_slides_flows forms [(rk, body)] prev gen) f.key =
        some (gen body)) ∧
    (∀ f ∈ forms,
      dictLookup (generate_slides_flows forms [] prev gen) f.key =
        some (gen prev)) := by
  constructor
  · intro f hf hdep
    have hred : generate_slides_flows forms [(rk, body)] prev gen =
        create_slides_flows forms body (some rk) gen [] := by
      simp [generate_slides_flows]
    rw [hred]
    exact lookup_create_slides_some forms [] rk body gen hrk f.key
      (Or.inl ⟨f, hf, rfl, hdep⟩)
  · intro f hf
    have hred : generate_slides_flows forms [] prev gen =
        create_slides_flows forms prev none gen [] := by
      simp [generate_slides_flows]
    rw [hred]
    exact lookup_create_slides_none forms [] prev gen f.key
      (Or.inl (List.mem_map_of_mem SlideForm.key hf))

/-- Witness for C9 (amended) at concrete inputs. -/
theorem slide_dependency_policy_witness :
    dictLookup (generate_slides_flows [⟨"s1", ["r1"]⟩] [("r1", "body")]
        "prior" (fun c => "slide:" ++ c)) "s1" = some "slide:body" ∧
    dictLookup (generate_slides_flows [⟨"s1", ["r1"]⟩] [] "prior"
        (fun c => "slide:" ++ c)) "s1" = some "slide:prior" := by
  have h := slide_dependency_policy [⟨"s1", ["r1"]⟩] "r1" "body" "prior"
    (fun c => "slide:" ++ c) (by decide)
  exact ⟨h.1 ⟨"s1", ["r1"]⟩ (by simp) (by simp),
    h.2 ⟨"s1", ["r1"]⟩ (by simp)⟩

-- ===========================================================================
-- SAVE phase: final persist conditions (C10)
-- ===========================================================================

/-- Python truthiness of `Optional[int]` (`None` and `0` are falsy). -/
def intOptTruthy : Option Int → Bool
  | none => false
  | some n => n != 0

/-- Python truthiness of `Optional[str]` (`None` and `""` are falsy). -/
def strOptTruthy : Option String → Bool
  | none => false
  | some s => s != ""

/-- One `save_task_result(todo_id, {proc_form_id: all_results}, final=True)`
call to the Store Gateway. -/
structure SaveCall where
  todoId : Int
  formId : String
  payload : List (String × String)
  final : Bool
deriving DecidableEq, Repr

/-- `all_results = {**report_contents, **slide_contents, **text_contents}`. -/
def all_results (report slide text : List (String × String)) :
    List (String × String) :=
  dictMerge (dictMerge report slide) text

/-- Embeds `save_final_results` of `src/flows/multi_format_flow.py`
(lines 534–560) (the legacy `src/multi_format_flow.py`, lines 573–599, is
identical in this respect): only when `todo_id` and `proc_form_id` are both
truthy is `all_results` built, and only when it is non-empty is
`save_task_result(..., final=True)` invoked; otherwise the function returns
without calling the Store Gateway and without raising. -/
def save_final_results (report slide text : List (String × String))
    (todo_id : Option Int) (proc_form_id : Option String) : List SaveCall :=
  if intOptTruthy todo_id = true ∧ strOptTruthy proc_form_id = true then
    if all_results report slide text ≠ [] then
      [⟨todo_id.getD 0, proc_form_id.getD "",
        all_results report slide text, true⟩]
    else []
  else []

/-- The stored result payload for the task, as affected by a sequence of
save calls (a save overwrites the payload; no call leaves it untouched). -/
def applySaveCalls (stored : Option (List (String × String)))
    (calls : List SaveCall) : Option (List (String × String)) :=
  calls.foldl (fun _st c => some c.payload) stored

/-- C10: the final SAVE step performs no Store Gateway save at all — and so
leaves the backing store's result payload unchanged — whenever the merged
`report ∪ slide ∪ text` map is empty, or `todo_id` is unset, or the target
form id is unset; and the job nevertheless completes successfully: the
worker exits 0 and the supervisor then emits `crew_completed` and marks the
task COMPLETED. -/
theorem save_final_results_skip (report slide text : List (String × String))
    (todo_id : Option Int) (proc_form_id : Option String)
    (stored : Option (List (String × String))) (id : Nat) :
    (todo_id = none →
      save_final_results report slide text todo_id proc_form_id = []) ∧
    (proc_form_id = none →
      save_final_results report slide text todo_id proc_form_id = []) ∧
    (all_results report slide text = [] →
      save_final_results report slide text todo_id proc_form_id = []) ∧
    (save_final_results report slide text todo_id proc_form_id = [] →
      applySaveCalls stored
        (save_final_results report slide text todo_id proc_form_id) = stored) ∧
    execute_worker_post false 0 id = ([.markCompleted id], [.crewCompleted]) := by
  refine ⟨?_, ?_, ?_, ?_, rfl⟩
  · intro h; subst h; simp [save_final_results, intOptTruthy]
  · intro h; subst h; simp [save_final_results, strOptTruthy]
  · intro h
    unfold save_final_results
    rw [h]
    simp
  · intro h
    rw [h]
    rfl

/-- Witness for C10 at concrete inputs: non-empty contents but unset
`todo_id`; and all-empty contents with both ids set. -/
theorem save_final_results_skip_witness :
    save_final_results [("r1", "body")] [] [] none (some "form-1") = [] ∧
    save_final_results [] [] [] (some 5) (some "form-1") = [] ∧
    applySaveCalls (some [("old", "payload")])
      (save_final_results [] [] [] (some 5) (some "form-1")) =
        some [("old", "payload")] := by
  have h1 := save_final_results_skip [("r1", "body")] [] [] none
    (some "form-1") none 7
  have h2 := save_final_results_skip [] [] [] (some 5) (some "form-1")
    (some [("old", "payload")]) 7
  refine ⟨h1.1 rfl, h2.2.2.1 rfl, h2.2.2.2.1 (h2.2.2.1 rfl)⟩

end DeepResearch
